import Mathlib

/-!
Verification of the AIRAC cycle calculator (`src/main.py`).

Calendar dates are embedded as integers in the proleptic Gregorian
day-count used by CPython's `datetime.date.toordinal` (day 1 is
0001-01-01), extended to all integers.  All Python `//` and `%`
operations in the source act on positive divisors, where Python's
floor semantics coincide with Lean's Euclidean `/` and `%` on `Int`.
-/

/-- Models `datetime._days_before_year`: number of days before January 1
of year `y`, in CPython's proleptic Gregorian calendar, extended to all
integers (divisors are positive, so `/` is floor division as in Python). -/
def daysBeforeYear (y : Int) : Int :=
  365 * (y - 1) + (y - 1) / 4 - (y - 1) / 100 + (y - 1) / 400

/-- Day ordinal of `date(y, 1, 1)` (`datetime.date(y,1,1).toordinal()`). -/
def jan1 (y : Int) : Int := daysBeforeYear y + 1

/-- Day ordinal of `date(y, 12, 31)` (`datetime.date(y,12,31).toordinal()`). -/
def dec31 (y : Int) : Int := jan1 (y + 1) - 1

/-- Models the year component of `datetime.date.fromordinal n`: the
mixed-radix 400/100/4/1 year computation of CPython's `_ord2ymd`,
extended to all integers. -/
def yearOf (n : Int) : Int :=
  let m := n - 1
  let q := m / 146097
  let r := m % 146097
  let n100 := r / 36524
  let r1 := r % 36524
  let n4 := r1 / 1461
  let r2 := r1 % 1461
  let n1 := r2 / 365
  let y := 400 * q + 100 * n100 + 4 * n4 + n1 + 1
  if n1 = 4 ∨ n100 = 4 then y - 1 else y

/-- The year-within-400-year-block part of `yearOf`, acting on a day
offset `r` inside one 146097-day block. -/
def blockYear (r : Int) : Int :=
  let n100 := r / 36524
  let r1 := r % 36524
  let n4 := r1 / 1461
  let r2 := r1 % 1461
  let n1 := r2 / 365
  if n1 = 4 ∨ n100 = 4 then 100 * n100 + 4 * n4 + n1 else 100 * n100 + 4 * n4 + n1 + 1

/-- `AIRACCalculator.EPOCH = date(2020, 1, 2)` (src/main.py line 34). -/
def EPOCH : Int := jan1 2020 + 1

/-- `AIRACCalculator.CYCLE_DAYS = 28` (src/main.py line 37). -/
def CYCLE_DAYS : Int := 28

/-- The `AIRACCycle` NamedTuple (src/main.py lines 12-18). -/
structure AIRACCycle where
  identifier : String
  year : Int
  ordinal : Int
  effective_date : Int
  expiration_date : Int
deriving DecidableEq, Repr

/-- ASCII digit character for `k` with `0 ≤ k ≤ 9`. -/
def digitChar (k : Int) : Char := Char.ofNat (48 + k.toNat)

/-- Models the Python format `f"{n:02d}"` for `0 ≤ n ≤ 99` (the only
inputs the source ever formats: `year % 100` lies in `[0, 99]` and
`ordinal` in `[1, 14]`): the two-digit zero-padded decimal string. -/
def fmt02 (n : Int) : String := ⟨[digitChar (n / 10), digitChar (n % 10)]⟩

/-- Numeric value of an ASCII digit character, as used by Python `int()`
on a digit string. -/
def digitVal (c : Char) : Int := (c.toNat : Int) - 48

/-- The first-cycle-of-year computation of `from_date`
(src/main.py lines 65-74, repeated at lines 80-86): the earliest cycle
boundary on or after January 1 of `year`. -/
def firstCycleStart (year : Int) : Int :=
  let year_start := jan1 year
  let offset := (year_start - EPOCH) % CYCLE_DAYS
  if offset > 0 then year_start + (CYCLE_DAYS - offset) else year_start

/-- `AIRACCalculator.from_date` (src/main.py lines 39-100) with the
query date passed explicitly (the Python default is `date.today()`). -/
def from_date (query_date : Int) : AIRACCycle :=
  let days_since_epoch := query_date - EPOCH
  let cycles_since_epoch := days_since_epoch / CYCLE_DAYS
  let effective_date := EPOCH + cycles_since_epoch * CYCLE_DAYS
  let expiration_date := effective_date + (CYCLE_DAYS - 1)
  let year0 := yearOf effective_date
  let year := if effective_date < firstCycleStart year0 then year0 - 1 else year0
  let first_cycle_start := firstCycleStart year
  let ordinal := (effective_date - first_cycle_start) / CYCLE_DAYS + 1
  let identifier := fmt02 (year % 100) ++ fmt02 ordinal
  ⟨identifier, year, ordinal, effective_date, expiration_date⟩

/-- The two `ValueError` messages raised by `from_identifier`:
`invalidIdentifier` is "Invalid AIRAC identifier: ..." (raised at
src/main.py lines 119 and 144) and `invalidOrdinal` is
"Invalid ordinal in AIRAC identifier: ..." (raised at line 131). -/
inductive AiracError where
  | invalidIdentifier (s : String)
  | invalidOrdinal (s : String)
deriving DecidableEq, Repr

deriving instance DecidableEq for Except

/-- The body of `from_identifier` after the four digits have been
parsed (src/main.py lines 121-146). -/
def resolveIdentifier (identifier : String) (year_part ordinal : Int) :
    Except AiracError AIRACCycle :=
  let year := if 64 ≤ year_part then 1900 + year_part else 2000 + year_part
  if ordinal < 1 ∨ 14 < ordinal then .error (.invalidOrdinal identifier)
  else
    let prev_year_end := dec31 (year - 1)
    let last_cycle_prev_year := from_date prev_year_end
    let cycles_to_add := ordinal
    let target_effective := last_cycle_prev_year.effective_date + cycles_to_add * CYCLE_DAYS
    let result := from_date target_effective
    if result.year ≠ year ∨ result.ordinal ≠ ordinal then
      .error (.invalidIdentifier identifier)
    else .ok result

/-- `AIRACCalculator.from_identifier` (src/main.py lines 102-146):
length-4 and all-digits validation, then century resolution, ordinal
range check, and round-trip verification.  The per-character digit
check models line 118's `str.isdigit` on ASCII characters, the spec's
input domain ("exactly 4 ASCII digits").  CPython's `str.isdigit` also
accepts non-ASCII Unicode digits: on such 4-character inputs the source
parses decimal-digit strings with `int()` and proceeds normally, and
raises an invalid-literal `ValueError` from `int()` for
digit-but-not-decimal characters.  That non-ASCII behavior lies outside
the spec's domain and is not modeled; theorems about the format check
are therefore stated only for inputs of wrong length (where the source
rejects regardless of content) or with ASCII content. -/
def from_identifier (identifier : String) : Except AiracError AIRACCycle :=
  match identifier.data with
  | [d1, d2, d3, d4] =>
    if d1.isDigit && d2.isDigit && d3.isDigit && d4.isDigit then
      resolveIdentifier identifier
        (digitVal d1 * 10 + digitVal d2) (digitVal d3 * 10 + digitVal d4)
    else .error (.invalidIdentifier identifier)
  | _ => .error (.invalidIdentifier identifier)

/-- `AIRACCalculator.current` (src/main.py lines 148-151), with the
clock's `date.today()` passed explicitly. -/
def current (today : Int) : AIRACCycle := from_date today

/-- `AIRACCalculator.next` (src/main.py lines 153-159) with the cycle
argument explicit (the Python default is `current()`). -/
def next (cycle : AIRACCycle) : AIRACCycle :=
  from_date (cycle.effective_date + CYCLE_DAYS)

/-- `AIRACCalculator.previous` (src/main.py lines 161-167) with the
cycle argument explicit (the Python default is `current()`). -/
def previous (cycle : AIRACCycle) : AIRACCycle :=
  from_date (cycle.effective_date - 1)

/-- Whether the round trip date -> identifier -> cycle recovers the
effective date of the cycle of `d` (the property claimed by the spec's
round-trip law). -/
def effRoundTrip (d : Int) : Bool :=
  match from_identifier (from_date d).identifier with
  | .ok c => c.effective_date == (from_date d).effective_date
  | .error _ => false

theorem yearOf_eq (n : Int) :
    yearOf n = 400 * ((n - 1) / 146097) + blockYear ((n - 1) % 146097) := by
  simp only [yearOf, blockYear]
  split_ifs <;> omega

theorem daysBeforeYear_block (q s : Int) :
    daysBeforeYear (400 * q + s) = 146097 * q + daysBeforeYear s := by
  simp only [daysBeforeYear]
  omega

theorem blockYear_bracket (r : Int) (h0 : 0 ≤ r) (h1 : r < 146097) :
    daysBeforeYear (blockYear r) ≤ r ∧ r < daysBeforeYear (blockYear r + 1) := by
  have H1 : r = 36524 * (r / 36524) + r % 36524 := by omega
  have H1b : 0 ≤ r % 36524 ∧ r % 36524 < 36524 := by omega
  have H2 : r % 36524 = 1461 * (r % 36524 / 1461) + r % 36524 % 1461 := by omega
  have H2b : 0 ≤ r % 36524 % 1461 ∧ r % 36524 % 1461 < 1461 := by omega
  have Hb1 : 0 ≤ r / 36524 := by omega
  have Hb2 : r / 36524 ≤ 4 := by omega
  have Hb4 : r / 36524 = 4 → r % 36524 = 0 := by omega
  have Hc1 : 0 ≤ r % 36524 / 1461 := by omega
  have Hc2 : r % 36524 / 1461 ≤ 24 := by omega
  have Hc24 : r % 36524 / 1461 = 24 → r % 36524 % 1461 ≤ 1459 := by omega
  have Hd1 : 0 ≤ r % 36524 % 1461 / 365 := by omega
  have Hd2 : r % 36524 % 1461 / 365 ≤ 4 := by omega
  have Hd4 : r % 36524 % 1461 / 365 = 4 → r % 36524 % 1461 % 365 = 0 := by omega
  have H3 : r % 36524 % 1461 = 365 * (r % 36524 % 1461 / 365) + r % 36524 % 1461 % 365 := by
    omega
  have H3b : 0 ≤ r % 36524 % 1461 % 365 ∧ r % 36524 % 1461 % 365 < 365 := by omega
  simp only [blockYear, daysBeforeYear]
  generalize r % 36524 % 1461 % 365 = r3 at H3 H3b Hd4
  generalize r % 36524 % 1461 / 365 = d at *
  generalize r % 36524 % 1461 = r2 at *
  generalize r % 36524 / 1461 = c at *
  generalize r % 36524 = r1 at *
  generalize r / 36524 = b at *
  interval_cases b <;> interval_cases d <;> split_ifs <;> omega

/-- `yearOf n` is the year whose January 1 is the last one at or
before day `n`: the defining property of the calendar year of a date. -/
theorem yearOf_bracket (n : Int) : jan1 (yearOf n) ≤ n ∧ n < jan1 (yearOf n + 1) := by
  have h0 : 0 ≤ (n - 1) % 146097 := by omega
  have h1 : (n - 1) % 146097 < 146097 := by omega
  have hbb := blockYear_bracket ((n - 1) % 146097) h0 h1
  have hq : n - 1 = 146097 * ((n - 1) / 146097) + (n - 1) % 146097 := by omega
  rw [yearOf_eq]
  have e1 := daysBeforeYear_block ((n - 1) / 146097) (blockYear ((n - 1) % 146097))
  have harg : 400 * ((n - 1) / 146097) + blockYear ((n - 1) % 146097) + 1 =
      400 * ((n - 1) / 146097) + (blockYear ((n - 1) % 146097) + 1) := by ring
  have e2 := daysBeforeYear_block ((n - 1) / 146097) (blockYear ((n - 1) % 146097) + 1)
  simp only [jan1]
  rw [harg, e1, e2]
  omega

theorem jan1_mono (u v : Int) (h : u ≤ v) : jan1 u ≤ jan1 v := by
  simp only [jan1, daysBeforeYear]
  omega

theorem jan1_succ_bounds (y : Int) :
    365 ≤ jan1 (y + 1) - jan1 y ∧ jan1 (y + 1) - jan1 y ≤ 366 := by
  simp only [jan1, daysBeforeYear]
  omega

theorem yearOf_unique (y n : Int) (h1 : jan1 y ≤ n) (h2 : n < jan1 (y + 1)) :
    yearOf n = y := by
  have hb := yearOf_bracket n
  rcases lt_trichotomy (yearOf n) y with h | h | h
  · have := jan1_mono (yearOf n + 1) y (by omega)
    omega
  · exact h
  · have := jan1_mono (y + 1) (yearOf n) (by omega)
    omega

theorem EPOCH_val : EPOCH = 737426 := by decide

theorem from_date_effective (d : Int) :
    (from_date d).effective_date = EPOCH + (d - EPOCH) / 28 * 28 := rfl

theorem from_date_expiration (d : Int) :
    (from_date d).expiration_date = (from_date d).effective_date + 27 := rfl

theorem from_date_year_eq (d : Int) :
    (from_date d).year =
      (if (from_date d).effective_date
          < firstCycleStart (yearOf (from_date d).effective_date) then
        yearOf (from_date d).effective_date - 1
      else yearOf (from_date d).effective_date) := rfl

theorem from_date_ordinal_eq (d : Int) :
    (from_date d).ordinal =
      ((from_date d).effective_date - firstCycleStart (from_date d).year) / 28 + 1 := rfl

theorem from_date_identifier_eq (d : Int) :
    (from_date d).identifier =
      fmt02 ((from_date d).year % 100) ++ fmt02 (from_date d).ordinal := rfl

/-- `firstCycleStart y` is a cycle boundary, at most 27 days after
January 1 of `y` and not before it. -/
theorem firstCycleStart_spec (y : Int) :
    jan1 y ≤ firstCycleStart y ∧ firstCycleStart y ≤ jan1 y + 27 ∧
      (firstCycleStart y - EPOCH) % 28 = 0 := by
  simp only [firstCycleStart, CYCLE_DAYS, EPOCH_val]
  split_ifs <;> omega

theorem effective_mod (d : Int) : ((from_date d).effective_date - EPOCH) % 28 = 0 := by
  rw [from_date_effective]
  omega

theorem effective_le (d : Int) :
    (from_date d).effective_date ≤ d ∧ d < (from_date d).effective_date + 28 := by
  rw [from_date_effective]
  omega

/-- `from_date` depends only on which 28-day block the query date is in. -/
theorem from_date_congr (d e : Int) (h : (d - EPOCH) / 28 = (e - EPOCH) / 28) :
    from_date d = from_date e := by
  simp only [from_date, CYCLE_DAYS]
  rw [h]

/-- `from_date` at a cycle boundary returns that boundary as the
effective date. -/
theorem eff_of_boundary (x : Int) (h : (x - EPOCH) % 28 = 0) :
    (from_date x).effective_date = x := by
  rw [from_date_effective]
  omega

theorem from_date_idem (d : Int) :
    from_date ((from_date d).effective_date) = from_date d := by
  apply from_date_congr
  rw [from_date_effective]
  omega

/-- The year-boundary rule of `from_date`: the returned year `Y` is the
one whose first cycle boundary is at or before the effective date,
with the next year's first boundary strictly after it, and the ordinal
is the 1-based cycle count from that boundary, always in `[1, 14]`. -/
theorem from_date_year_ordinal (d : Int) :
    firstCycleStart (from_date d).year ≤ (from_date d).effective_date ∧
      (from_date d).effective_date < firstCycleStart ((from_date d).year + 1) ∧
      1 ≤ (from_date d).ordinal ∧ (from_date d).ordinal ≤ 14 := by
  have hmod := effective_mod d
  have hyr := from_date_year_eq d
  have hord := from_date_ordinal_eq d
  set e := (from_date d).effective_date with he
  have hyb := yearOf_bracket e
  have hf0 := firstCycleStart_spec (yearOf e)
  have hf1 := firstCycleStart_spec (yearOf e + 1)
  have hfm := firstCycleStart_spec (yearOf e - 1)
  have hl1 := jan1_succ_bounds (yearOf e)
  have hl2 := jan1_succ_bounds (yearOf e - 1)
  have harg : yearOf e - 1 + 1 = yearOf e := by ring
  rw [harg] at hl2
  by_cases hc : e < firstCycleStart (yearOf e)
  · rw [if_pos hc] at hyr
    rw [hyr] at hord ⊢
    rw [harg, hord]
    omega
  · rw [if_neg hc] at hyr
    rw [hyr] at hord ⊢
    rw [hord]
    omega

theorem digitChar_val (k : Int) (h0 : 0 ≤ k) (h1 : k ≤ 9) :
    digitVal (digitChar k) = k ∧ (digitChar k).isDigit = true := by
  interval_cases k <;> exact ⟨by decide, by decide⟩

theorem fmt02_append (a b : Int) :
    fmt02 a ++ fmt02 b =
      (⟨[digitChar (a / 10), digitChar (a % 10),
         digitChar (b / 10), digitChar (b % 10)]⟩ : String) := rfl

theorem from_identifier_mk (c1 c2 c3 c4 : Char) :
    from_identifier ⟨[c1, c2, c3, c4]⟩ =
      (if c1.isDigit && c2.isDigit && c3.isDigit && c4.isDigit then
        resolveIdentifier ⟨[c1, c2, c3, c4]⟩
          (digitVal c1 * 10 + digitVal c2) (digitVal c3 * 10 + digitVal c4)
      else .error (.invalidIdentifier ⟨[c1, c2, c3, c4]⟩)) := rfl

/-- Parsing a string produced by the identifier formatter recovers the
two numbers. -/
theorem from_identifier_fmt (a b : Int) (ha0 : 0 ≤ a) (ha1 : a ≤ 99)
    (hb0 : 0 ≤ b) (hb1 : b ≤ 99) :
    from_identifier (fmt02 a ++ fmt02 b) = resolveIdentifier (fmt02 a ++ fmt02 b) a b := by
  have h1 := digitChar_val (a / 10) (by omega) (by omega)
  have h2 := digitChar_val (a % 10) (by omega) (by omega)
  have h3 := digitChar_val (b / 10) (by omega) (by omega)
  have h4 := digitChar_val (b % 10) (by omega) (by omega)
  have e1 : digitVal (digitChar (a / 10)) * 10 + digitVal (digitChar (a % 10)) = a := by
    rw [h1.1, h2.1]; omega
  have e2 : digitVal (digitChar (b / 10)) * 10 + digitVal (digitChar (b % 10)) = b := by
    rw [h3.1, h4.1]; omega
  rw [fmt02_append, from_identifier_mk, h1.2, h2.2, h3.2, h4.2, e1, e2]
  simp

theorem last_cycle_prev (Y : Int) :
    (from_date (dec31 (Y - 1))).effective_date = firstCycleStart Y - 28 := by
  have hf := firstCycleStart_spec Y
  rw [from_date_effective]
  have harg : Y - 1 + 1 = Y := by ring
  simp only [dec31, harg]
  omega

/-- Inside the 1964-2063 century window of the identifier encoding,
`from_identifier` inverts `from_date`'s identifier exactly. -/
theorem round_trip_window (d : Int) (h1 : 1964 ≤ (from_date d).year)
    (h2 : (from_date d).year ≤ 2063) :
    from_identifier (from_date d).identifier = Except.ok (from_date d) := by
  have hyo := from_date_year_ordinal d
  have hid := from_date_identifier_eq d
  have hordeq := from_date_ordinal_eq d
  have hmod := effective_mod d
  have hf := firstCycleStart_spec (from_date d).year
  set Y := (from_date d).year with hY
  set O := (from_date d).ordinal with hO
  set e := (from_date d).effective_date with he
  rw [hid, from_identifier_fmt (Y % 100) O (by omega) (by omega) (by omega) (by omega)]
  simp only [resolveIdentifier, CYCLE_DAYS]
  have hyear : (if 64 ≤ Y % 100 then 1900 + Y % 100 else 2000 + Y % 100) = Y := by
    split_ifs <;> omega
  rw [hyear, if_neg (by omega : ¬(O < 1 ∨ 14 < O)), last_cycle_prev Y]
  have htar : firstCycleStart Y - 28 + O * 28 = e := by omega
  rw [htar, he, from_date_idem, ← hY, ← hO]
  rw [if_neg (by simp)]

/-- A string whose length is not 4 makes `from_identifier` fail with
the generic invalid-identifier error (src/main.py lines 118-119; the
source rejects such inputs whatever their characters are). -/
theorem from_identifier_length_error (s : String) (h : s.length ≠ 4) :
    from_identifier s = Except.error (.invalidIdentifier s) := by
  obtain ⟨l⟩ := s
  rcases l with _ | ⟨c1, _ | ⟨c2, _ | ⟨c3, _ | ⟨c4, _ | ⟨c5, t⟩⟩⟩⟩⟩
  · rfl
  · rfl
  · rfl
  · rfl
  · exact absurd rfl h
  · rfl

/-- Four characters that are not all digits make `from_identifier` fail
with the generic invalid-identifier error (src/main.py lines 118-119). -/
theorem from_identifier_nondigit_error (c1 c2 c3 c4 : Char)
    (hd : (c1.isDigit && c2.isDigit && c3.isDigit && c4.isDigit) = false) :
    from_identifier ⟨[c1, c2, c3, c4]⟩ =
      Except.error (.invalidIdentifier ⟨[c1, c2, c3, c4]⟩) := by
  rw [from_identifier_mk]
  simp only [hd, Bool.false_eq_true, if_false]

/-- A four-digit string whose last two digits are outside `[1, 14]`
makes `from_identifier` fail with the ordinal error (src/main.py line 131). -/
theorem from_identifier_ordinal_error (c1 c2 c3 c4 : Char)
    (hd : (c1.isDigit && c2.isDigit && c3.isDigit && c4.isDigit) = true)
    (h : digitVal c3 * 10 + digitVal c4 < 1 ∨ 14 < digitVal c3 * 10 + digitVal c4) :
    from_identifier ⟨[c1, c2, c3, c4]⟩ =
      Except.error (.invalidOrdinal ⟨[c1, c2, c3, c4]⟩) := by
  rw [from_identifier_mk, if_pos hd]
  simp only [resolveIdentifier]
  rw [if_pos h]

/-- Whenever `from_identifier` succeeds, the returned cycle is one
computed by `from_date` (src/main.py lines 142-146). -/
theorem from_identifier_ok (s : String) (c : AIRACCycle)
    (h : from_identifier s = Except.ok c) : ∃ x, c = from_date x := by
  obtain ⟨l⟩ := s
  rcases l with _ | ⟨c1, _ | ⟨c2, _ | ⟨c3, _ | ⟨c4, _ | ⟨c5, t⟩⟩⟩⟩⟩
  · injection h
  · injection h
  · injection h
  · injection h
  · rw [from_identifier_mk] at h
    by_cases hd : (c1.isDigit && c2.isDigit && c3.isDigit && c4.isDigit) = true
    · rw [if_pos hd] at h
      simp only [resolveIdentifier] at h
      split_ifs at h
      all_goals
        injection h with h
        exact ⟨_, h.symm⟩
    · rw [if_neg hd] at h
      injection h
  · injection h

/-- Claim C1: `from_date` is total over all calendar dates, including
dates before the epoch: the effective date is
`EPOCH + 28 * floor((d - EPOCH) / 28)` (floor division, so negative
offsets resolve correctly) and the query date lies between the
effective date and the expiration date. -/
theorem C1_from_date_total (d : Int) :
    (from_date d).effective_date = EPOCH + 28 * ((d - EPOCH) / 28) ∧
      (from_date d).effective_date ≤ d ∧ d ≤ (from_date d).expiration_date := by
  have h1 := from_date_effective d
  have h2 := from_date_expiration d
  omega

/-- Claim C2: the cycle returned by `from_date` carries year and
ordinal assigned by the year-boundary rule: `firstCycleStart year` is a
cycle boundary lying in the first 28 days of the year (hence the first
boundary on or after January 1), the effective date lies between the
year's first boundary and the next year's first boundary, and the
ordinal equals `(effective_date - firstCycleStart year) / 28 + 1`,
always within `[1, 14]`. -/
theorem C2_year_ordinal_rule (d : Int) :
    (from_date d).ordinal =
        ((from_date d).effective_date - firstCycleStart (from_date d).year) / 28 + 1 ∧
      1 ≤ (from_date d).ordinal ∧ (from_date d).ordinal ≤ 14 ∧
      firstCycleStart (from_date d).year ≤ (from_date d).effective_date ∧
      (from_date d).effective_date < firstCycleStart ((from_date d).year + 1) ∧
      jan1 (from_date d).year ≤ firstCycleStart (from_date d).year ∧
      firstCycleStart (from_date d).year < jan1 (from_date d).year + 28 ∧
      (firstCycleStart (from_date d).year - EPOCH) % 28 = 0 := by
  have h1 := from_date_year_ordinal d
  have h2 := from_date_ordinal_eq d
  have h3 := firstCycleStart_spec (from_date d).year
  exact ⟨h2, h1.2.2.1, h1.2.2.2, h1.1, h1.2.1, h3.1, by omega, h3.2.2⟩

/-- Claim C3 (counterexample): the unrestricted round-trip law fails.
For the date 200 days into 2064 the cycle has year 2064, but its
identifier "6408" resolves back to the 1964 cycle, whose effective
date differs. -/
theorem C3_counterexample :
    effRoundTrip (jan1 2064 + 200) = false ∧
      (from_date (jan1 2064 + 200)).year = 2064 := by
  exact ⟨by decide, by decide⟩

/-- Claim C3 (amended): the round trip
`from_identifier (from_date d).identifier = ok (from_date d)` holds for
every date whose cycle year lies in the century window 1964-2063 (the
identifier only encodes the year modulo 100, so outside this window the
identifier resolves to a cycle 100 years away). -/
theorem C3_round_trip_in_window (d : Int) (h1 : 1964 ≤ (from_date d).year)
    (h2 : (from_date d).year ≤ 2063) :
    from_identifier (from_date d).identifier = Except.ok (from_date d) :=
  round_trip_window d h1 h2

/-- Witness for C3's amended theorem at the epoch date. -/
theorem C3_witness :
    1964 ≤ (from_date EPOCH).year ∧ (from_date EPOCH).year ≤ 2063 ∧
      from_identifier (from_date EPOCH).identifier = Except.ok (from_date EPOCH) :=
  ⟨by decide, by decide, C3_round_trip_in_window EPOCH (by decide) (by decide)⟩

/-- Claim C4 (counterexample): round-trip verification failure does not
raise the distinct ordinal-range error: "2114" is four digits with
ordinal 14 in `[1, 14]`, yet it fails with the same
invalid-identifier error that malformed inputs such as "123" get. -/
theorem C4_counterexample :
    from_identifier "2114" = Except.error (.invalidIdentifier "2114") ∧
      from_identifier "123" = Except.error (.invalidIdentifier "123") ∧
      "2114".length = 4 ∧ "2114".data.all Char.isDigit = true ∧
      digitVal '1' * 10 + digitVal '4' = 14 := by
  exact ⟨by decide, by decide, by decide, by decide, by decide⟩

/-- Claim C4 (amended): on the spec's input domain, `from_identifier`
fails with the format error (`invalidIdentifier`) when the length is
not 4 (for any string whatever its characters: the source rejects on
length alone) or when, among four ASCII characters, some character is
not a digit; it fails with the distinct ordinal error
(`invalidOrdinal`, checked after the format check) when the parsed
ordinal is outside `[1, 14]`; a round-trip verification failure raises
the same error as the format check, not the ordinal error.  "12a3" and
"123" give the format error while "2515" and "2500" give the ordinal
error; on any failure no cycle is returned.  (The non-digit clause
carries ASCII bounds because line 118's `str.isdigit` also accepts
non-ASCII Unicode digits, which the source goes on to parse; those
inputs are outside the spec's 4-ASCII-digit domain.) -/
theorem C4_error_classification :
    (∀ s : String, s.length ≠ 4 →
      from_identifier s = Except.error (.invalidIdentifier s)) ∧
      (∀ c1 c2 c3 c4 : Char,
        c1.toNat < 128 → c2.toNat < 128 → c3.toNat < 128 → c4.toNat < 128 →
        (c1.isDigit && c2.isDigit && c3.isDigit && c4.isDigit) = false →
        from_identifier ⟨[c1, c2, c3, c4]⟩ =
          Except.error (.invalidIdentifier ⟨[c1, c2, c3, c4]⟩)) ∧
      (∀ c1 c2 c3 c4 : Char,
        (c1.isDigit && c2.isDigit && c3.isDigit && c4.isDigit) = true →
        digitVal c3 * 10 + digitVal c4 < 1 ∨ 14 < digitVal c3 * 10 + digitVal c4 →
        from_identifier ⟨[c1, c2, c3, c4]⟩ =
          Except.error (.invalidOrdinal ⟨[c1, c2, c3, c4]⟩)) ∧
      from_identifier "12a3" = Except.error (.invalidIdentifier "12a3") ∧
      from_identifier "123" = Except.error (.invalidIdentifier "123") ∧
      from_identifier "2515" = Except.error (.invalidOrdinal "2515") ∧
      from_identifier "2500" = Except.error (.invalidOrdinal "2500") :=
  ⟨fun s h => from_identifier_length_error s h,
   fun c1 c2 c3 c4 _ _ _ _ hd => from_identifier_nondigit_error c1 c2 c3 c4 hd,
   fun c1 c2 c3 c4 hd h => from_identifier_ordinal_error c1 c2 c3 c4 hd h,
   by decide, by decide, by decide, by decide⟩

/-- Witness for C4's amended theorem on concrete rejected inputs,
exercising the length, non-digit and ordinal clauses. -/
theorem C4_witness :
    "123".length ≠ 4 ∧
      from_identifier "123" = Except.error (.invalidIdentifier "123") ∧
      ('1'.toNat < 128 ∧ '2'.toNat < 128 ∧ 'a'.toNat < 128 ∧ '3'.toNat < 128 ∧
        ('1'.isDigit && '2'.isDigit && 'a'.isDigit && '3'.isDigit) = false) ∧
      from_identifier ⟨['1', '2', 'a', '3']⟩ =
        Except.error (.invalidIdentifier ⟨['1', '2', 'a', '3']⟩) ∧
      (('2'.isDigit && '5'.isDigit && '1'.isDigit && '5'.isDigit) = true) ∧
      from_identifier ⟨['2', '5', '1', '5']⟩ =
        Except.error (.invalidOrdinal ⟨['2', '5', '1', '5']⟩) :=
  ⟨by decide, C4_error_classification.1 "123" (by decide),
   ⟨by decide, by decide, by decide, by decide, by decide⟩,
   C4_error_classification.2.1 '1' '2' 'a' '3'
     (by decide) (by decide) (by decide) (by decide) (by decide),
   by decide,
   C4_error_classification.2.2.1 '2' '5' '1' '5' (by decide) (by decide)⟩

/-- Claim C5: every cycle returned by any operation (`from_date`,
`from_identifier`, `current`, `next`, `previous`) has
`expiration_date = effective_date + 27`. -/
theorem C5_expiration_invariant :
    (∀ d : Int, (from_date d).expiration_date = (from_date d).effective_date + 27) ∧
      (∀ (s : String) (c : AIRACCycle), from_identifier s = Except.ok c →
        c.expiration_date = c.effective_date + 27) ∧
      (∀ t : Int, (current t).expiration_date = (current t).effective_date + 27) ∧
      (∀ c : AIRACCycle, (next c).expiration_date = (next c).effective_date + 27) ∧
      (∀ c : AIRACCycle, (previous c).expiration_date = (previous c).effective_date + 27) := by
  refine ⟨from_date_expiration, ?_, fun t => from_date_expiration t,
    fun c => from_date_expiration _, fun c => from_date_expiration _⟩
  intro s c h
  obtain ⟨x, rfl⟩ := from_identifier_ok s c h
  exact from_date_expiration x

/-- Witness for C5 discharging the `from_identifier` hypothesis at
"2001". -/
theorem C5_witness :
    from_identifier "2001" = Except.ok (from_date EPOCH) ∧
      (from_date EPOCH).expiration_date = (from_date EPOCH).effective_date + 27 :=
  ⟨by decide, C5_expiration_invariant.2.1 "2001" (from_date EPOCH) (by decide)⟩

/-- Claim C6: cycles are contiguous and non-overlapping: for every date,
the cycle's expiration date plus one day is the next cycle's effective
date. -/
theorem C6_contiguity (d : Int) :
    (from_date d).expiration_date + 1 = (next (from_date d)).effective_date := by
  have h1 := from_date_expiration d
  have hm := effective_mod d
  have h2 : (next (from_date d)).effective_date = (from_date d).effective_date + 28 :=
    eff_of_boundary ((from_date d).effective_date + 28) (by omega)
  omega

/-- Claim C7: `next` and `previous` are mutual inverses on cycles
produced by the calculator, with `next` advancing by exactly one cycle
and `previous` landing exactly one cycle earlier. -/
theorem C7_next_previous_inverse (d : Int) :
    previous (next (from_date d)) = from_date d ∧
      next (previous (from_date d)) = from_date d := by
  have hm := effective_mod d
  have he := from_date_effective d
  have hnext_eff : (next (from_date d)).effective_date = (from_date d).effective_date + 28 :=
    eff_of_boundary ((from_date d).effective_date + 28) (by omega)
  have hprev_eff :
      (previous (from_date d)).effective_date = (from_date d).effective_date - 28 := by
    show (from_date ((from_date d).effective_date - 1)).effective_date = _
    rw [from_date_effective]
    omega
  constructor
  · show from_date ((next (from_date d)).effective_date - 1) = from_date d
    rw [hnext_eff]
    apply from_date_congr
    omega
  · show from_date ((previous (from_date d)).effective_date + CYCLE_DAYS) = from_date d
    rw [hprev_eff]
    apply from_date_congr
    simp only [CYCLE_DAYS]
    omega

/-- Claim C8: when `from_identifier` succeeds on four digits, the
returned cycle's year is `1900 + year_part` for `year_part ≥ 64` and
`2000 + year_part` otherwise, and its ordinal is the value of the last
two digits; an ordinal that does not exist for the resolved year is
rejected rather than mapped to a different cycle. -/
theorem C8_identifier_resolution (c1 c2 c3 c4 : Char)
    (hd : (c1.isDigit && c2.isDigit && c3.isDigit && c4.isDigit) = true)
    (c : AIRACCycle) (h : from_identifier ⟨[c1, c2, c3, c4]⟩ = Except.ok c) :
    c.year = (if 64 ≤ digitVal c1 * 10 + digitVal c2
      then 1900 + (digitVal c1 * 10 + digitVal c2)
      else 2000 + (digitVal c1 * 10 + digitVal c2)) ∧
      c.ordinal = digitVal c3 * 10 + digitVal c4 := by
  rw [from_identifier_mk, if_pos hd] at h
  simp only [resolveIdentifier] at h
  split_ifs at h
  all_goals
    rename_i hrange hcentury hmatch
    push_neg at hmatch
    injection h with h
    rw [← h]
  · rw [if_pos hcentury]
    exact ⟨hmatch.1, hmatch.2⟩
  · rw [if_neg hcentury]
    exact ⟨hmatch.1, hmatch.2⟩

/-- Witness for C8 at the identifier "2001". -/
theorem C8_witness :
    (('2'.isDigit && '0'.isDigit && '0'.isDigit && '1'.isDigit) = true) ∧
      from_identifier ⟨['2', '0', '0', '1']⟩ = Except.ok (from_date EPOCH) ∧
      (from_date EPOCH).year = (if 64 ≤ digitVal '2' * 10 + digitVal '0'
        then 1900 + (digitVal '2' * 10 + digitVal '0')
        else 2000 + (digitVal '2' * 10 + digitVal '0')) ∧
      (from_date EPOCH).ordinal = digitVal '0' * 10 + digitVal '1' :=
  ⟨by decide, by decide,
   C8_identifier_resolution '2' '0' '0' '1' (by decide) (from_date EPOCH) (by decide)⟩

/-- Claim C9: the concrete anchors hold: the epoch date maps to
identifier "2001" with effective date the epoch itself, expiring 27
days later with ordinal 1; 2020-01-30 starts cycle "2002"; and
2020-12-31 lies in cycle "2014" (2020 has 14 cycles). -/
theorem C9_concrete_anchors :
    (from_date EPOCH).effective_date = EPOCH ∧
      (from_date EPOCH).expiration_date = EPOCH + 27 ∧
      (from_date EPOCH).ordinal = 1 ∧
      (from_date EPOCH).identifier = "2001" ∧
      (from_date (jan1 2020 + 29)).identifier = "2002" ∧
      (from_date (jan1 2020 + 29)).effective_date = jan1 2020 + 29 ∧
      (from_date (dec31 2020)).identifier = "2014" := by
  exact ⟨by decide, by decide, by decide, by decide, by decide, by decide, by decide⟩

/-- Claim C10: the identifier encodes only the year modulo 100, so
the round trip through `from_identifier` is guaranteed exactly inside
the century window: it holds for every date whose cycle year lies in
`[1964, 2063]`, and any two cycles agreeing on year mod 100 and
ordinal (in particular cycles 100 years apart) share an identifier. -/
theorem C10_century_window :
    (∀ d : Int, 1964 ≤ (from_date d).year → (from_date d).year ≤ 2063 →
      from_identifier (from_date d).identifier = Except.ok (from_date d)) ∧
      (∀ d e : Int, (from_date d).year % 100 = (from_date e).year % 100 →
        (from_date d).ordinal = (from_date e).ordinal →
        (from_date d).identifier = (from_date e).identifier) := by
  constructor
  · exact round_trip_window
  · intro d e h1 h2
    rw [from_date_identifier_eq, from_date_identifier_eq, h1, h2]

/-- Witness for C10: the epoch cycle round-trips, and the 2020 and 2120
ordinal-1 cycles share the identifier "2001". -/
theorem C10_witness :
    (1964 ≤ (from_date EPOCH).year ∧ (from_date EPOCH).year ≤ 2063 ∧
      from_identifier (from_date EPOCH).identifier = Except.ok (from_date EPOCH)) ∧
      ((from_date EPOCH).year % 100 = (from_date (jan1 2120 + 26)).year % 100 ∧
        (from_date EPOCH).ordinal = (from_date (jan1 2120 + 26)).ordinal ∧
        (from_date EPOCH).identifier = (from_date (jan1 2120 + 26)).identifier) :=
  ⟨⟨by decide, by decide, C10_century_window.1 EPOCH (by decide) (by decide)⟩,
   ⟨by decide, by decide,
    C10_century_window.2 EPOCH (jan1 2120 + 26) (by decide) (by decide)⟩⟩
